import Mathlib

/-!
Verification of the `passablewords` password-validation library
(`src/lib.rs`) against its specification.

The library exposes four pure checks:

* `check_length`: accepts iff `password.len() >= 8` (Rust `str::len`, i.e.
  the UTF-8 byte length);
* `check_uniqueness`: rejects iff the password is a verbatim member of the
  common-password corpus (a `HashSet` built from the lines of
  `src/common-passwords.txt`, loaded lazily and aborting on I/O failure);
* `check_entropy`: delegates to the external `zxcvbn` estimator and maps
  its outcome (score or error) into the library's verdict vocabulary;
* `check_password`: chains the three checks with `Result::and`, so the
  returned value is the reason of the first check that fails.

The corpus contents and the external estimator live outside the sources,
so both are parameters of the embedding: the corpus is a `List String`
(the lines of the file) and the estimator is a function
`String → Except ZxcvbnError Nat` (the `zxcvbn` call with an empty
user-input list, returning `result.score` on success).
-/

/-- The verdict vocabulary: Rust `enum PasswordError` from `src/lib.rs`. -/
inductive PasswordError where
  /-- The password is less than 8 characters. -/
  | TooShort
  /-- The password is in the common-password list. -/
  | TooCommon
  /-- The entropy of the password is too low. -/
  | TooSimple
  /-- The password is not using ASCII characters (a zxcvbn requirement). -/
  | NonAsciiPassword
  /-- Something went wrong during the checks. -/
  | InternalError
deriving DecidableEq, Repr

/-- Rust `type PassablewordResult = Result<(), PasswordError>`. -/
abbrev PassablewordResult := Except PasswordError Unit

instance {ε α : Type} [DecidableEq ε] [DecidableEq α] :
    DecidableEq (Except ε α) := fun a b =>
  match a, b with
  | .ok x, .ok y =>
      if h : x = y then isTrue (by rw [h]) else isFalse (by simp [h])
  | .error x, .error y =>
      if h : x = y then isTrue (by rw [h]) else isFalse (by simp [h])
  | .ok _, .error _ => isFalse (by simp)
  | .error _, .ok _ => isFalse (by simp)

/-- The error type of the external `zxcvbn` estimator.  `NonAsciiPassword`
is the unsupported-character-set condition; `OtherError` stands for every
other variant (the Rust code matches them with a wildcard `_`). -/
inductive ZxcvbnError where
  | NonAsciiPassword
  | OtherError
deriving DecidableEq, Repr

/-- The external estimator: `zxcvbn(password, &[])`, abstracted as a
function from the password to either its score (`result.score`) or an
error.  It is a parameter of the embedding because `zxcvbn` is a
third-party black box. -/
abbrev ZxEstimator := String → Except ZxcvbnError Nat

/-- Rust `check_length` from `src/lib.rs`:
`if password.len() >= 8 { Ok(()) } else { Err(PasswordError::TooShort) }`.
Rust `str::len` is the UTF-8 byte length, embedded as
`String.utf8ByteSize`. -/
def check_length (password : String) : PassablewordResult :=
  if password.utf8ByteSize ≥ 8 then .ok () else .error PasswordError.TooShort

/-- Rust `check_uniqueness` from `src/lib.rs`:
`if PASSWORDS.contains(password) { Err(TooCommon) } else { Ok(()) }`.
The `HashSet` `PASSWORDS` is embedded as the list of corpus lines;
`HashSet::contains` is exact string membership. -/
def check_uniqueness (corpus : List String) (password : String) :
    PassablewordResult :=
  if password ∈ corpus then .error PasswordError.TooCommon else .ok ()

/-- Rust `check_entropy` from `src/lib.rs`: call `zxcvbn(password, &[])`;
on a score, accept iff `result.score >= 3`, otherwise `TooSimple`; on an
error, map `ZxcvbnError::NonAsciiPassword` to `NonAsciiPassword` and every
other error (wildcard `_`) to `InternalError`. -/
def check_entropy (est : ZxEstimator) (password : String) : PassablewordResult :=
  match est password with
  | .ok result =>
      if result ≥ 3 then .ok () else .error PasswordError.TooSimple
  | .error zxcvbnError =>
      match zxcvbnError with
      | ZxcvbnError.NonAsciiPassword => .error PasswordError.NonAsciiPassword
      | _ => .error PasswordError.InternalError

/-- Rust `Result::and`: `a.and(b)` is `b` when `a` is `Ok`, and `a`'s
error otherwise. -/
def resultAnd (a b : PassablewordResult) : PassablewordResult :=
  match a with
  | .error e => .error e
  | .ok _ => b

/-- Rust `check_password` from `src/lib.rs`:
`check_length(p).and(check_uniqueness(p)).and(check_entropy(p))`. -/
def check_password (corpus : List String) (est : ZxEstimator)
    (password : String) : PassablewordResult :=
  resultAnd (resultAnd (check_length password) (check_uniqueness corpus password))
    (check_entropy est password)

/-- A constant estimator, used to instantiate theorems at concrete inputs. -/
def constEstimator (r : Except ZxcvbnError Nat) : ZxEstimator := fun _ => r

/-- `p` is obtained from `e` by changing exactly one character: the two
strings have the same length and differ at exactly one position. -/
def changedOneChar (e p : String) : Prop :=
  e.length = p.length ∧
    ((e.data.zip p.data).countP fun q => q.1 != q.2) = 1

instance (e p : String) : Decidable (changedOneChar e p) := by
  unfold changedOneChar; infer_instance

/-- The ways the corpus load in the `lazy_static` block of `src/lib.rs` can
fail: `File::open("src/common-passwords.txt")` fails, or `read_to_string`
fails. -/
inductive CorpusLoadFailure where
  | openFailed
  | readFailed
deriving DecidableEq, Repr

/-- The outcome of the one-time `lazy_static` construction of
`FILE_CONTENTS`/`PASSWORDS` in `src/lib.rs`: either the process aborts (both
fallible steps use `.expect(...)`, which panics) or the password set is
ready. -/
inductive CorpusInit where
  | aborted
  | ready (passwords : List String)
deriving DecidableEq, Repr

/-- Rust `str::lines` strips one trailing `\r` from each line. -/
def stripCarriageReturn (line : String) : String :=
  if line.endsWith "\r" then line.dropRight 1 else line

/-- Rust `str::lines`: split on `\n`, no trailing empty line when the text
ends with `\n`, and a trailing `\r` of each line is dropped. -/
def rustLines (s : String) : List String :=
  if s = "" then []
  else
    ((if s.endsWith "\n" then s.dropRight 1 else s).splitOn "\n").map
      stripCarriageReturn

/-- The `lazy_static` construction of `FILE_CONTENTS` and `PASSWORDS` in
`src/lib.rs`, as a function of the outcome of reading the corpus file: a
failure of `File::open` or `read_to_string` hits an `.expect(...)`, which
panics (embedded as `CorpusInit.aborted`); on success the password set is
the set of lines of the file contents. -/
def initCorpus (fileRead : Except CorpusLoadFailure String) : CorpusInit :=
  match fileRead with
  | .error _ => CorpusInit.aborted
  | .ok fileContents => CorpusInit.ready (rustLines fileContents)

/-- C1: `check_password p` returns the reason of the first gate that fails
when the three gates are taken in the fixed order length, uniqueness,
entropy, and returns `Ok` if and only if `check_length`,
`check_uniqueness` and `check_entropy` each individually accept `p`. -/
theorem check_password_first_failure (corpus : List String)
    (est : ZxEstimator) (p : String) :
    (check_password corpus est p =
      match check_length p with
      | .error e => .error e
      | .ok _ =>
          match check_uniqueness corpus p with
          | .error e => .error e
          | .ok _ => check_entropy est p) ∧
    (check_password corpus est p = .ok () ↔
      check_length p = .ok () ∧ check_uniqueness corpus p = .ok () ∧
        check_entropy est p = .ok ()) := by
  unfold check_password resultAnd
  rcases h1 : check_length p with e1 | u1 <;>
    rcases h2 : check_uniqueness corpus p with e2 | u2 <;>
    rcases h3 : check_entropy est p with e3 | u3 <;>
    simp

/-- C2 evidence: the Rust code compares `password.len()` — the UTF-8 byte
count — against 8, so the four-character password `"éééé"` (eight bytes) is
accepted even though its character count is below 8, contradicting the
code's own documentation ("less than 8 characters"). -/
theorem check_length_counts_bytes_not_chars :
    check_length "éééé" = .ok () ∧ ("éééé" : String).length = 4 ∧
      ("éééé" : String).utf8ByteSize = 8 := by decide

/-- C3: `check_uniqueness` fails with `TooCommon` exactly when the password
is a verbatim member of the corpus, and succeeds exactly when it is not. -/
theorem check_uniqueness_exact_membership (corpus : List String)
    (p : String) :
    (check_uniqueness corpus p = .error PasswordError.TooCommon ↔
      p ∈ corpus) ∧
    (check_uniqueness corpus p = .ok () ↔ p ∉ corpus) := by
  unfold check_uniqueness
  by_cases h : p ∈ corpus <;> simp [h]

/-- C4: when the estimator returns a score for `p`, `check_entropy`
succeeds iff the score is at least 3 and fails with `TooSimple` iff the
score is below 3. -/
theorem check_entropy_score_threshold (est : ZxEstimator) (p : String)
    (score : Nat) (h : est p = .ok score) :
    (check_entropy est p = .ok () ↔ 3 ≤ score) ∧
    (check_entropy est p = .error PasswordError.TooSimple ↔ score < 3) := by
  unfold check_entropy
  rw [h]
  by_cases hs : 3 ≤ score
  · simp [hs]
  · simp [hs]
    omega

/-- C4 witness: a concrete estimator scoring 4 accepts, threshold facts
discharged at that input. -/
theorem check_entropy_score_threshold_witness :
    (check_entropy (constEstimator (.ok 4)) "Th1s iS a PassW0rd" = .ok () ↔
      3 ≤ 4) ∧
    (check_entropy (constEstimator (.ok 4)) "Th1s iS a PassW0rd" =
      .error PasswordError.TooSimple ↔ 4 < 3) :=
  check_entropy_score_threshold (constEstimator (.ok 4))
    "Th1s iS a PassW0rd" 4 rfl

/-- C5: `check_entropy` fails with `NonAsciiPassword` exactly when the
estimator reports the unsupported-character-set error, and with
`InternalError` exactly when the estimator reports some other error — so
`InternalError` never arises when the estimator produced a score. -/
theorem check_entropy_error_mapping (est : ZxEstimator) (p : String) :
    (check_entropy est p = .error PasswordError.NonAsciiPassword ↔
      est p = .error ZxcvbnError.NonAsciiPassword) ∧
    (check_entropy est p = .error PasswordError.InternalError ↔
      ∃ e, e ≠ ZxcvbnError.NonAsciiPassword ∧ est p = .error e) := by
  rcases h : est p with e | score
  · cases e <;> simp [check_entropy, h]
  · by_cases hs : 3 ≤ score <;> simp [check_entropy, h, hs]

/-- C6: whenever the Length Gate fails, `check_password` returns `TooShort`
no matter what the corpus holds and what the estimator answers. -/
theorem check_password_tooshort_overrides (corpus : List String)
    (est : ZxEstimator) (p : String)
    (h : check_length p = .error PasswordError.TooShort) :
    check_password corpus est p = .error PasswordError.TooShort := by
  simp [check_password, resultAnd, h]

/-- C6 witness: `"short"` is too short; with a corpus that also holds
`"short"` and an estimator scoring it 0, the verdict is still `TooShort`. -/
theorem check_password_tooshort_overrides_witness :
    check_password ["short"] (constEstimator (.ok 0)) "short" =
      .error PasswordError.TooShort :=
  check_password_tooshort_overrides ["short"] (constEstimator (.ok 0))
    "short" (by decide)

/-- C7 counterexample: with a corpus holding both `"123456"` and
`"123457"`, the string `"123457"` is obtained from the corpus entry
`"123456"` by changing exactly one character, yet `check_uniqueness`
fails with `TooCommon` on it. -/
theorem check_uniqueness_one_char_change_cex :
    "123456" ∈ (["123456", "123457"] : List String) ∧
    changedOneChar "123456" "123457" ∧
    check_uniqueness ["123456", "123457"] "123457" =
      .error PasswordError.TooCommon := by decide

/-- C7 amended: changing exactly one character of a corpus entry yields a
password that `check_uniqueness` accepts, provided the resulting string is
not itself a verbatim corpus entry (matching is exact, with no fuzzy or
edit-distance comparison). -/
theorem check_uniqueness_one_char_change_amended (corpus : List String)
    (e p : String) (_he : e ∈ corpus) (_hd : changedOneChar e p)
    (hp : p ∉ corpus) : check_uniqueness corpus p = .ok () := by
  simp [check_uniqueness, hp]

/-- C7 witness: `"123457"` differs from the sole corpus entry `"123456"`
in exactly one character and is accepted. -/
theorem check_uniqueness_one_char_change_witness :
    check_uniqueness ["123456"] "123457" = .ok () :=
  check_uniqueness_one_char_change_amended ["123456"] "123456" "123457"
    (by decide) (by decide) (by decide)

/-- C8: each of the four checks is deterministic in its input — two calls
on equal password strings yield equal verdicts (the corpus and the
estimator are read-only). -/
theorem checks_deterministic (corpus : List String) (est : ZxEstimator)
    (p q : String) (h : p = q) :
    check_length p = check_length q ∧
    check_uniqueness corpus p = check_uniqueness corpus q ∧
    check_entropy est p = check_entropy est q ∧
    check_password corpus est p = check_password corpus est q := by
  subst h
  exact ⟨rfl, rfl, rfl, rfl⟩

/-- C8 witness: the four determinism equations at the concrete input
`"password"`. -/
theorem checks_deterministic_witness :
    check_length "password" = check_length "password" ∧
    check_uniqueness ["password"] "password" =
      check_uniqueness ["password"] "password" ∧
    check_entropy (constEstimator (.ok 3)) "password" =
      check_entropy (constEstimator (.ok 3)) "password" ∧
    check_password ["password"] (constEstimator (.ok 3)) "password" =
      check_password ["password"] (constEstimator (.ok 3)) "password" :=
  checks_deterministic ["password"] (constEstimator (.ok 3)) "password"
    "password" rfl

/-- C9: a failed corpus load aborts the one-time construction — the store
never reaches the `ready` state on a load failure, so no per-call verdict
(permissive or otherwise) can be produced from a failed load; on a
successful read the store holds exactly the lines of the file. -/
theorem initCorpus_fail_fast (err : CorpusLoadFailure) :
    initCorpus (.error err) = CorpusInit.aborted ∧
    (∀ passwords, initCorpus (.error err) ≠ CorpusInit.ready passwords) ∧
    (∀ fileContents, initCorpus (.ok fileContents) =
      CorpusInit.ready (rustLines fileContents)) := by
  refine ⟨rfl, ?_, fun _ => rfl⟩
  intro passwords hcontra
  exact CorpusInit.noConfusion hcontra

/-- C10: `check_uniqueness` only ever returns `Ok` or `TooCommon`; in
particular it never returns `InternalError`. -/
theorem check_uniqueness_verdict_range (corpus : List String) (p : String) :
    (check_uniqueness corpus p = .ok () ∨
      check_uniqueness corpus p = .error PasswordError.TooCommon) ∧
    check_uniqueness corpus p ≠ .error PasswordError.InternalError := by
  unfold check_uniqueness
  by_cases h : p ∈ corpus <;> simp [h]
